import Mathlib

/-!
Verification of the CartY payment-settlement core (`backend/server.py`).

The settlement handlers are embedded shallowly: each FastAPI handler becomes a
pure Lean function from its inputs (parsed gateway response, current time,
database snapshot, request parameters) to a record holding the new database
snapshot, the HTTP-level response, and observable effects (scheduled e-mails,
whether the external gateway was called).  The Supabase persistence layer is
modelled as lists of rows; `select ... limit(1)` becomes `List.find?`,
`update ... eq(...)` becomes a map over matching rows and `delete ... eq(...)`
a filter.  External library calls (the Paystack HTTP client, HMAC-SHA512,
JSON parsing of a webhook body) are parameters of the model, since their
implementations live outside the repository.  Time is modelled as a natural
number of seconds (`datetime.utcnow()`); monetary amounts as integers.
-/

/-- Supabase `update(...).eq(col, v)` semantics: rewrite every matching row. -/
def updateWhere (p : α → Bool) (f : α → α) (xs : List α) : List α :=
  xs.map (fun x => if p x then f x else x)

/-- Supabase `delete().eq(col, v)` semantics: drop every matching row. -/
def deleteWhere (p : α → Bool) (xs : List α) : List α :=
  xs.filter (fun x => !(p x))

/-- `find?` over an `updateWhere` whose rewrite does not change the searched
column commutes with the update. -/
theorem find?_updateWhere (p q : α → Bool) (f : α → α)
    (h : ∀ x, q (if p x then f x else x) = q x) (xs : List α) :
    (updateWhere p f xs).find? q = (xs.find? q).map (fun x => if p x then f x else x) := by
  induction xs with
  | nil => rfl
  | cons a xs ih =>
    simp only [updateWhere, List.map_cons]
    rcases hqa : q a with _ | _
    · rw [List.find?_cons_of_neg, List.find?_cons_of_neg]
      · exact ih
      · simp [hqa]
      · simp [h a, hqa]
    · rw [List.find?_cons_of_pos, List.find?_cons_of_pos]
      · rfl
      · exact hqa
      · rw [h a]; exact hqa

/-- `updateWhere` is the identity when no row matches. -/
theorem updateWhere_of_no_match (p : α → Bool) (f : α → α) (xs : List α)
    (h : ∀ x ∈ xs, p x = false) : updateWhere p f xs = xs := by
  induction xs with
  | nil => rfl
  | cons a xs ih =>
    simp only [updateWhere, List.map_cons]
    rw [h a (List.mem_cons_self a xs)]
    simp only [if_neg Bool.false_ne_true]
    exact congrArg (a :: ·) (ih (fun x hx => h x (List.mem_cons_of_mem a hx)))

/-- `deleteWhere` is the identity when no row matches. -/
theorem deleteWhere_of_no_match (p : α → Bool) (xs : List α)
    (h : ∀ x ∈ xs, p x = false) : deleteWhere p xs = xs := by
  induction xs with
  | nil => rfl
  | cons a xs ih =>
    simp only [deleteWhere, List.filter_cons]
    rw [h a (List.mem_cons_self a xs)]
    simp only [Bool.not_false, if_pos rfl]
    exact congrArg (a :: ·) (ih (fun x hx => h x (List.mem_cons_of_mem a hx)))

/-- `find?` returns `none` when no row matches. -/
theorem find?_of_no_match (q : α → Bool) (xs : List α)
    (h : ∀ x ∈ xs, q x = false) : xs.find? q = none := by
  rw [List.find?_eq_none]
  intro x hx
  rw [h x hx]
  exact Bool.false_ne_true

/-! ## Data model (rows of the Supabase tables used by the settlement core) -/

/-- Row of the `stores` table (the fields the settlement core touches). -/
structure Store where
  id : Nat
  user_id : Nat
  name : String
  slug : String
  email : Option String
  whatsapp_number : String
  wallet_balance : Int
  pending_balance : Int
  total_earnings : Int
  subscription_status : String
  subscription_end_date : Option Nat
  recipient_code : Option String
deriving DecidableEq, Repr

/-- One element of an order's `items` JSON list, as built at checkout. -/
structure OrderItem where
  product_id : String
  name : String
  quantity : Nat
  price : Int
deriving DecidableEq, Repr

/-- Row of the `orders` table. -/
structure Order where
  id : String
  store_id : Nat
  buyer_name : String
  buyer_phone : String
  buyer_address : String
  buyer_note : Option String
  items : List OrderItem
  total_amount : Int
  payment_reference : String
  status : String
  paid_at : Option Nat
deriving DecidableEq, Repr

/-- Row of the `withdrawals` table. -/
structure Withdrawal where
  store_id : Nat
  amount : Int
  reference : String
  status : String
  completed_at : Option Nat
deriving DecidableEq, Repr

/-- Row of the `pending_subscriptions` table. -/
structure PendingSubscription where
  store_id : Nat
  reference : String
  email : String
deriving DecidableEq, Repr

/-- Snapshot of the persisted store (the four tables the settlement core reads
and writes). -/
structure DB where
  stores : List Store
  orders : List Order
  withdrawals : List Withdrawal
  pending_subs : List PendingSubscription
deriving DecidableEq, Repr

def findStoreBySlug (db : DB) (slug : String) : Option Store :=
  db.stores.find? (fun s => s.slug == slug)

def findStoreById (db : DB) (i : Nat) : Option Store :=
  db.stores.find? (fun s => s.id == i)

def findStoreByUser (db : DB) (u : Nat) : Option Store :=
  db.stores.find? (fun s => s.user_id == u)

def findOrderByRef (db : DB) (r : String) : Option Order :=
  db.orders.find? (fun o => o.payment_reference == r)

def findWithdrawalByRef (db : DB) (r : String) : Option Withdrawal :=
  db.withdrawals.find? (fun w => w.reference == r)

def findPendingByRef (db : DB) (r : String) : Option PendingSubscription :=
  db.pending_subs.find? (fun p => p.reference == r)

/-- Wallet balance of the store row with the given id, if any. -/
def walletOf (db : DB) (i : Nat) : Option Int :=
  (findStoreById db i).map (·.wallet_balance)

/-- Total earnings of the store row with the given id, if any. -/
def earningsOf (db : DB) (i : Nat) : Option Int :=
  (findStoreById db i).map (·.total_earnings)

/-- Status of the withdrawal row with the given reference, if any. -/
def withdrawalStatusOf (db : DB) (r : String) : Option String :=
  (findWithdrawalByRef db r).map (·.status)

/-! ## String helpers used by `generate_whatsapp_link` (server.py lines 202-220) -/

/-- `re.sub(r'[^0-9]', '', phone)`: keep only ASCII digits. -/
def digitsOnly (s : String) : String :=
  String.mk (s.data.filter Char.isDigit)

/-- Python `s.startswith(pre)`, computed on the underlying character lists. -/
def pyStartsWith (s pre : String) : Bool :=
  pre.data.isPrefixOf s.data

/-- Phone normalisation of `generate_whatsapp_link`: a leading `0` is replaced
by the country code `234`, and a number not starting with `234` is prefixed
with it. -/
def waPhone (phone : String) : String :=
  let clean := digitsOnly phone
  if pyStartsWith clean "0" then "234" ++ String.mk (clean.data.drop 1)
  else if !(pyStartsWith clean "234") then "234" ++ clean
  else clean

/-- Upper-case hex digit, as used by `urllib.parse.quote` percent-escapes. -/
def hexDig (n : Nat) : Char :=
  if n < 10 then Char.ofNat (48 + n) else Char.ofNat (55 + n)

/-- UTF-8 encoding of a single code point, as a list of byte values. -/
def utf8Bytes (c : Char) : List Nat :=
  let n := c.toNat
  if n < 0x80 then [n]
  else if n < 0x800 then [0xC0 + n / 0x40, 0x80 + n % 0x40]
  else if n < 0x10000 then
    [0xE0 + n / 0x1000, 0x80 + (n / 0x40) % 0x40, 0x80 + n % 0x40]
  else
    [0xF0 + n / 0x40000, 0x80 + (n / 0x1000) % 0x40, 0x80 + (n / 0x40) % 0x40, 0x80 + n % 0x40]

/-- Characters `urllib.parse.quote` leaves unescaped (default `safe='/'`). -/
def quoteSafe (c : Char) : Bool :=
  (97 ≤ c.toNat && c.toNat ≤ 122) || (65 ≤ c.toNat && c.toNat ≤ 90) ||
  (48 ≤ c.toNat && c.toNat ≤ 57) || c == '_' || c == '.' || c == '-' || c == '~' || c == '/'

/-- `%XX` escape of one byte. -/
def pctByte (b : Nat) : String :=
  String.mk ['%', hexDig (b / 16), hexDig (b % 16)]

/-- `urllib.parse.quote(s)` with the default safe set. -/
def urlQuote (s : String) : String :=
  String.join (s.data.map (fun c =>
    if quoteSafe c then String.mk [c] else String.join ((utf8Bytes c).map pctByte)))

/-- Groups of three characters, used for thousands separators. -/
def chunk3 : List Char → List (List Char)
  | [] => []
  | a :: b :: c :: rest => [a, b, c] :: chunk3 rest
  | l => [l]

/-- Decimal digits of `n` with a comma every three digits from the right. -/
def groupDigits (n : Nat) : String :=
  let rev := (toString n).data.reverse
  String.join ((((chunk3 rev).map (fun c => String.mk c.reverse)).reverse).intersperse ",")

/-- Python `f"{x:,.2f}"` applied to an integral amount. -/
def formatMoney (i : Int) : String :=
  (if i < 0 then "-" else "") ++ groupDigits i.natAbs ++ ".00"

/-! ## Order notification payload and WhatsApp deep link -/

/-- The `notif` dict built in `verify_payment` (server.py line 438). -/
structure Notif where
  order_id : String
  buyer_name : String
  buyer_phone : String
  buyer_address : String
  buyer_note : Option String
  items : List OrderItem
  total : Int
deriving DecidableEq, Repr

/-- Python `s[-6:]`. -/
def lastN (s : String) (n : Nat) : String :=
  String.mk ((s.data.reverse.take n).reverse)

/-- Python `str.upper` on the ASCII ids used here. -/
def pyUpper (s : String) : String :=
  String.mk (s.data.map Char.toUpper)

/-- The notification payload for an order (server.py line 438):
`order['id'][-6:].upper()` plus the buyer fields, item list and total. -/
def mkNotif (o : Order) : Notif :=
  { order_id := pyUpper (lastN o.id 6)
    buyer_name := o.buyer_name
    buyer_phone := o.buyer_phone
    buyer_address := o.buyer_address
    buyer_note := o.buyer_note
    items := o.items
    total := o.total_amount }

/-- The optional `Note:` line of the WhatsApp message (empty when `buyer_note`
is absent or empty, matching Python truthiness). -/
def noteLine : Option String → String
  | some n => if n = "" then "" else "Note: " ++ n
  | none => ""

/-- Body of the WhatsApp message assembled in `generate_whatsapp_link`
(server.py lines 204-214). -/
def waMessage (d : Notif) : String :=
  let itemsText := String.join (d.items.map (fun i =>
    "\n- " ++ i.name ++ " x" ++ toString i.quantity))
  "NEW ORDER!\n\nCustomer: " ++ d.buyer_name ++
  "\nPhone: " ++ d.buyer_phone ++
  "\nAddress: " ++ d.buyer_address ++
  "\n" ++ noteLine d.buyer_note ++
  "\nItems:" ++ itemsText ++
  "\n\nTotal: ₦" ++ formatMoney d.total ++
  "\nOrder: #" ++ d.order_id ++
  "\nPayment Confirmed"

/-- `generate_whatsapp_link` (server.py lines 202-220): a `wa.me` deep link to
the normalised seller number carrying the URL-encoded order message. -/
def generate_whatsapp_link (phone : String) (d : Notif) : String :=
  "https://wa.me/" ++ waPhone phone ++ "?text=" ++ urlQuote (waMessage d)

/-! ## Shared settlement steps -/

/-- Thirty days in seconds (`timedelta(days=30)`). -/
def thirtyDays : Nat := 30 * 86400

/-- `orders.update(status='completed', paid_at=now).eq('id', oid)`
(server.py lines 432 and 732). -/
def completeOrder (db : DB) (oid : String) (now : Nat) : DB :=
  let os := updateWhere (fun o => o.id == oid)
    (fun o => { o with status := "completed", paid_at := some now }) db.orders
  { db with orders := os }

/-- The ledger credit written from a previously read row `cur`
(server.py lines 434-437 and 735): note the read-then-write shape — the new
balances are computed from `cur`, not from the row being rewritten. -/
def creditBoth (db : DB) (sid : Nat) (cur : Store) (amt : Int) : DB :=
  let ss := updateWhere (fun s => s.id == sid)
    (fun s => { s with wallet_balance := cur.wallet_balance + amt,
                       total_earnings := cur.total_earnings + amt }) db.stores
  { db with stores := ss }

/-- The wallet-only credit-back of `transfer.failed` (server.py line 753). -/
def creditWallet (db : DB) (sid : Nat) (cur : Store) (amt : Int) : DB :=
  let ss := updateWhere (fun s => s.id == sid)
    (fun s => { s with wallet_balance := cur.wallet_balance + amt }) db.stores
  { db with stores := ss }

/-- `stores.update(subscription_status='active', subscription_end_date=now+30d)`
(server.py lines 510 and 740). -/
def activateSub (db : DB) (sid : Nat) (now : Nat) : DB :=
  let ss := updateWhere (fun s => s.id == sid)
    (fun s => { s with subscription_status := "active",
                       subscription_end_date := some (now + thirtyDays) }) db.stores
  { db with stores := ss }

/-! ## Gateway responses (external collaborator, parameter of the model) -/

/-- Outcome of the Paystack `GET /transaction/verify/{reference}` call:
either a parsed JSON response carrying the top-level `status` flag and the
nested `data.status` string, or an exception (network error, timeout, bad
JSON), which the handlers catch. -/
inductive GatewayResult where
  | resp (status : Bool) (dataStatus : String)
  | exn
deriving DecidableEq, Repr

/-- JSON body of the order verification responses. -/
inductive VerifyBody where
  | success (message : String) (order_id : Option String) (whatsapp_link : Option String)
  | failed (message : String)
deriving DecidableEq, Repr

/-- HTTP-level result: a 200 JSON body or a raised `HTTPException`. -/
inductive ApiResp where
  | ok (body : VerifyBody)
  | err (code : Nat) (detail : String)
deriving DecidableEq, Repr

/-- Result of one run of the poll-verify handler: the new database snapshot,
the response, the e-mails scheduled via `BackgroundTasks`, and whether the
external gateway was contacted. -/
structure PollOut where
  db : DB
  resp : ApiResp
  emails : List String
  gatewayCalled : Bool
deriving DecidableEq, Repr

/-- `verify_payment` (server.py lines 416-445), the poll-path Order Settlement
Resolver.  `gw` is the outcome of the gateway verify call, `now` the current
time. -/
def verify_payment (gw : GatewayResult) (now : Nat) (db : DB)
    (slug reference : String) : PollOut :=
  match findStoreBySlug db slug with
  | none => ⟨db, .err 404 "Store not found", [], false⟩
  | some store =>
    match findOrderByRef db reference with
    | none => ⟨db, .err 404 "Order not found", [], false⟩
    | some order =>
      if order.status = "completed" then
        ⟨db, .ok (.success "Payment already verified" none none), [], false⟩
      else
        match gw with
        | .exn => ⟨db, .err 500 "Verification service unavailable", [], true⟩
        | .resp st ds =>
          if st && ds == "success" then
            let db1 := completeOrder db order.id now
            match findStoreById db1 store.id with
            | none =>
              -- `cur` is None: the subscript on line 435 raises, the
              -- surrounding `except` turns it into the 500 (unreachable
              -- sequentially, since the store row was just found).
              ⟨db1, .err 500 "Verification service unavailable", [], true⟩
            | some cur =>
              let db2 := creditBoth db1 store.id cur order.total_amount
              let notif := mkNotif order
              ⟨db2,
               .ok (.success "Payment verified" (some order.id)
                 (some (generate_whatsapp_link store.whatsapp_number notif))),
               (match store.email with | some e => [e] | none => []),
               true⟩
          else
            ⟨db, .ok (.failed "Payment verification failed"), [], true⟩

/-- JSON body of the subscription verification responses. -/
inductive SubResp where
  | success (end_date : Nat)
  | failed
  | err (code : Nat) (detail : String)
deriving DecidableEq, Repr

/-- Result of one run of the subscription verify handler. -/
structure SubOut where
  db : DB
  resp : SubResp
  gatewayCalled : Bool
deriving DecidableEq, Repr

/-- `verify_subscription` (server.py lines 499-515): looks up the caller's own
store, trusts the gateway verdict for the supplied reference, and on success
activates the subscription and deletes any `pending_subscriptions` rows with
that reference — with no check that such a row exists or belongs to the
caller's store. -/
def verify_subscription (gw : GatewayResult) (now : Nat) (db : DB)
    (userId : Nat) (reference : String) : SubOut :=
  match findStoreByUser db userId with
  | none => ⟨db, .err 404 "Store not found", false⟩
  | some store =>
    match gw with
    | .exn => ⟨db, .err 500 "Verification service unavailable", true⟩
    | .resp st ds =>
      if st && ds == "success" then
        let db1 := activateSub db store.id now
        let ps := deleteWhere (fun p => p.reference == reference) db1.pending_subs
        let db2 := { db1 with pending_subs := ps }
        ⟨db2, .success (now + thirtyDays), true⟩
      else
        ⟨db, .failed, true⟩

/-- Outcome of the Paystack `POST /transfer` call: a parsed response with its
top-level `status` flag, or an exception. -/
inductive TransferGw where
  | resp (status : Bool)
  | exn
deriving DecidableEq, Repr

/-- JSON body of the withdrawal responses. -/
inductive WdResp where
  | ok (reference : String)
  | err (code : Nat) (detail : String)
deriving DecidableEq, Repr

/-- Result of one run of the withdrawal handler. -/
structure WdOut where
  db : DB
  resp : WdResp
  gatewayCalled : Bool
deriving DecidableEq, Repr

/-- `request_withdrawal` (server.py lines 599-630).  `reference` is the
freshly minted `wd_`-prefixed reference (uuid, modelled as an argument). -/
def request_withdrawal (gw : TransferGw) (db : DB) (userId : Nat)
    (amount : Int) (reference : String) : WdOut :=
  match findStoreByUser db userId with
  | none => ⟨db, .err 404 "Store not found", false⟩
  | some store =>
    if store.recipient_code = none then
      ⟨db, .err 400 "Please setup your bank account first", false⟩
    else if store.wallet_balance < amount then
      ⟨db, .err 400 "Insufficient balance", false⟩
    else if amount < 100 then
      ⟨db, .err 400 "Minimum withdrawal is ₦100", false⟩
    else
      match gw with
      | .exn => ⟨db, .err 500 "Withdrawal service unavailable", true⟩
      | .resp st =>
        let wd : Withdrawal := ⟨store.id, amount, reference, "pending", none⟩
        let db1 := { db with withdrawals := db.withdrawals ++ [wd] }
        if st then
          -- note the stale read: the new balance is computed from the row
          -- fetched at the top of the handler (server.py line 622)
          let ss := updateWhere (fun s => s.id == store.id)
            (fun s => { s with wallet_balance := store.wallet_balance - amount }) db1.stores
          let db2 := { db1 with stores := ss }
          ⟨db2, .ok reference, true⟩
        else
          let ws := updateWhere (fun w => w.reference == reference)
            (fun w => { w with status := "failed" }) db1.withdrawals
          let db2 := { db1 with withdrawals := ws }
          ⟨db2, .err 500 "Withdrawal failed", true⟩

/-! ## Webhook (server.py lines 715-756) -/

/-- Parsed webhook event (`data.get("event")` plus `data["data"]["reference"]`). -/
inductive WEvent where
  | chargeSuccess (reference : String)
  | transferSuccess (reference : String)
  | transferFailed (reference : String)
  | other
deriving DecidableEq, Repr

/-- Order settlement from a trusted `charge.success` push
(server.py lines 730-735): complete the order and credit the ledger of the
store read back by id, skipping both steps when the order is missing or
already completed. -/
def orderSettle (ref : String) (now : Nat) (db : DB) : DB :=
  match findOrderByRef db ref with
  | some order =>
    if order.status = "completed" then db
    else
      let db1 := completeOrder db order.id now
      match findStoreById db1 order.store_id with
      | some cur => creditBoth db1 order.store_id cur order.total_amount
      | none => db1
  | none => db

/-- Subscription settlement from a trusted `charge.success` push
(server.py lines 737-741): activate the staged store's subscription and delete
the staging row; a missing staging row is a benign no-op. -/
def subSettle (ref : String) (now : Nat) (db : DB) : DB :=
  match findPendingByRef db ref with
  | some pending =>
    let db1 := activateSub db pending.store_id now
    let ps := deleteWhere (fun p => p.reference == ref) db1.pending_subs
    { db1 with pending_subs := ps }
  | none => db

/-- `transfer.success` handling (server.py line 745): mark every withdrawal
with the reference as succeeded. -/
def transferMark (ref : String) (now : Nat) (db : DB) : DB :=
  let ws := updateWhere (fun w => w.reference == ref)
    (fun w => { w with status := "success", completed_at := some now }) db.withdrawals
  { db with withdrawals := ws }

/-- `transfer.failed` handling (server.py lines 748-754): credit the debited
amount back to the owning store's wallet and mark the withdrawal failed. -/
def transferRevert (ref : String) (db : DB) : DB :=
  match findWithdrawalByRef db ref with
  | some w =>
    let db1 :=
      match findStoreById db w.store_id with
      | some cur => creditWallet db w.store_id cur w.amount
      | none => db
    let ws := updateWhere (fun x => x.reference == ref)
      (fun x => { x with status := "failed" }) db1.withdrawals
    { db1 with withdrawals := ws }
  | none => db

/-- The event router of `paystack_webhook` (server.py lines 727-754), applied
after the signature gate: `charge.success` dispatches on the reference prefix
(`carty_` to order settlement, `sub_` to subscription settlement), transfer
events go to the withdrawal records for the reference. -/
def webhookProcess (ev : WEvent) (now : Nat) (db : DB) : DB :=
  match ev with
  | .chargeSuccess ref =>
    if pyStartsWith ref "carty_" then orderSettle ref now db
    else if pyStartsWith ref "sub_" then subSettle ref now db
    else db
  | .transferSuccess ref => transferMark ref now db
  | .transferFailed ref => transferRevert ref db
  | .other => db

/-- Result of one webhook request: the new snapshot, the HTTP status
(200 or the 401 of the signature gate), and whether the body was parsed. -/
structure HookOut where
  db : DB
  status : Nat
  parsed : Bool
deriving DecidableEq, Repr

/-- `paystack_webhook` (server.py lines 715-756).  `mac secret body` stands
for `hmac.new(secret, body, hashlib.sha512).hexdigest()` (the HMAC-SHA512
primitive is a library call, passed in as a parameter); `signature` is the
`x-paystack-signature` header if present; `parse` stands for `json.loads`
plus the field reads, mapping the raw body to the event acted upon. -/
def paystack_webhook (mac : String → String → String) (secret : String)
    (signature : Option String) (body : String) (parse : String → WEvent)
    (now : Nat) (db : DB) : HookOut :=
  let computed := mac secret body
  if signature = some computed then
    ⟨webhookProcess (parse body) now db, 200, true⟩
  else
    ⟨db, 401, false⟩

/-! ## Interleaving model of two concurrent verification triggers

`verify_payment` (lines 421-437) and the `carty_` branch of the webhook
(lines 730-735) share the same four-step database conversation for a
reference: (0) select the order row and branch on its status, (1) update the
order to completed, (2) select the store's balances, (3) write the balances
read in step 2 plus the order total.  Each step is one Supabase round trip,
so concurrent triggers may interleave between steps.  `TrigState` is the
local state of one in-flight trigger. -/

structure TrigState where
  pc : Nat
  order : Option Order
  cur : Option Store
deriving DecidableEq, Repr

/-- A trigger before its first database call. -/
def trigInit : TrigState := ⟨0, none, none⟩

/-- One atomic database round trip of a verification trigger. -/
def trigStep (ref : String) (now : Nat) : TrigState × DB → TrigState × DB
  | (t, db) =>
    match t.pc with
    | 0 =>
      match findOrderByRef db ref with
      | some o =>
        if o.status = "completed" then ({ t with pc := 4 }, db)
        else ({ t with pc := 1, order := some o }, db)
      | none => ({ t with pc := 4 }, db)
    | 1 =>
      match t.order with
      | some o => ({ t with pc := 2 }, completeOrder db o.id now)
      | none => ({ t with pc := 4 }, db)
    | 2 =>
      match t.order with
      | some o =>
        match findStoreById db o.store_id with
        | some s => ({ t with pc := 3, cur := some s }, db)
        | none => ({ t with pc := 4 }, db)
      | none => ({ t with pc := 4 }, db)
    | 3 =>
      match t.order, t.cur with
      | some o, some c => ({ t with pc := 4 }, creditBoth db o.store_id c o.total_amount)
      | _, _ => ({ t with pc := 4 }, db)
    | _ => (t, db)

/-- Run two triggers for the same reference under a schedule: `true` steps
the first trigger, `false` the second. -/
def runSched (ref : String) (now : Nat) : List Bool → TrigState × TrigState × DB → TrigState × TrigState × DB
  | [], s => s
  | b :: rest, (t1, t2, db) =>
    if b then
      let (t1a, dba) := trigStep ref now (t1, db)
      runSched ref now rest (t1a, t2, dba)
    else
      let (t2a, dba) := trigStep ref now (t2, db)
      runSched ref now rest (t1, t2a, dba)

/-- Wallet balance after running two triggers from `trigInit` on `db` under
the given schedule. -/
def walletAfterSched (ref : String) (now : Nat) (sched : List Bool) (db : DB) (sid : Nat) : Option Int :=
  walletOf (runSched ref now sched (trigInit, trigInit, db)).2.2 sid

/-! ## Commutation lemmas between lookups and the settlement writes -/

theorem findStoreBySlug_completeOrder (db : DB) (oid : String) (now : Nat) (slug : String) :
    findStoreBySlug (completeOrder db oid now) slug = findStoreBySlug db slug := rfl

theorem findStoreById_completeOrder (db : DB) (oid : String) (now : Nat) (i : Nat) :
    findStoreById (completeOrder db oid now) i = findStoreById db i := rfl

theorem findOrderByRef_creditBoth (db : DB) (sid : Nat) (cur : Store) (amt : Int) (r : String) :
    findOrderByRef (creditBoth db sid cur amt) r = findOrderByRef db r := rfl

theorem findOrderByRef_completeOrder (db : DB) (oid : String) (now : Nat) (r : String) :
    findOrderByRef (completeOrder db oid now) r =
      (findOrderByRef db r).map (fun o =>
        if o.id == oid then { o with status := "completed", paid_at := some now } else o) := by
  unfold findOrderByRef completeOrder
  exact find?_updateWhere _ _ _ (fun x => by cases h : x.id == oid <;> simp [h]) _

theorem findStoreBySlug_creditBoth (db : DB) (sid : Nat) (cur : Store) (amt : Int) (slug : String) :
    findStoreBySlug (creditBoth db sid cur amt) slug =
      (findStoreBySlug db slug).map (fun s =>
        if s.id == sid then { s with wallet_balance := cur.wallet_balance + amt,
                                     total_earnings := cur.total_earnings + amt } else s) := by
  unfold findStoreBySlug creditBoth
  exact find?_updateWhere _ _ _ (fun x => by cases h : x.id == sid <;> simp [h]) _

theorem findStoreById_creditBoth (db : DB) (sid : Nat) (cur : Store) (amt : Int) (i : Nat) :
    findStoreById (creditBoth db sid cur amt) i =
      (findStoreById db i).map (fun s =>
        if s.id == sid then { s with wallet_balance := cur.wallet_balance + amt,
                                     total_earnings := cur.total_earnings + amt } else s) := by
  unfold findStoreById creditBoth
  exact find?_updateWhere _ _ _ (fun x => by cases h : x.id == sid <;> simp [h]) _

theorem findStoreById_creditWallet (db : DB) (sid : Nat) (cur : Store) (amt : Int) (i : Nat) :
    findStoreById (creditWallet db sid cur amt) i =
      (findStoreById db i).map (fun s =>
        if s.id == sid then { s with wallet_balance := cur.wallet_balance + amt } else s) := by
  unfold findStoreById creditWallet
  exact find?_updateWhere _ _ _ (fun x => by cases h : x.id == sid <;> simp [h]) _

theorem findStoreByUser_activateSub (db : DB) (sid : Nat) (now : Nat) (u : Nat) :
    findStoreByUser (activateSub db sid now) u =
      (findStoreByUser db u).map (fun s =>
        if s.id == sid then { s with subscription_status := "active",
                                     subscription_end_date := some (now + thirtyDays) } else s) := by
  unfold findStoreByUser activateSub
  exact find?_updateWhere _ _ _ (fun x => by cases h : x.id == sid <;> simp [h]) _

/-- The poll handler on a pending order with a successful gateway verdict:
the complete characterisation of the success path of `verify_payment`
(server.py lines 427-441). -/
theorem verify_payment_success_eq (now : Nat) (db : DB) (slug ref : String)
    (s : Store) (o : Order)
    (hs : findStoreBySlug db slug = some s)
    (hsid : findStoreById db s.id = some s)
    (ho : findOrderByRef db ref = some o)
    (hp : o.status = "pending") :
    verify_payment (.resp true "success") now db slug ref =
      ⟨creditBoth (completeOrder db o.id now) s.id s o.total_amount,
       .ok (.success "Payment verified" (some o.id)
         (some (generate_whatsapp_link s.whatsapp_number (mkNotif o)))),
       (match s.email with | some e => [e] | none => []),
       true⟩ := by
  unfold verify_payment
  rw [hs, ho]
  simp only [hp]
  rw [if_neg (by decide : ¬("pending" = "completed"))]
  simp only [if_pos (by decide : (true && ("success" == "success")) = true)]
  rw [findStoreById_completeOrder, hsid]

/-- The webhook `carty_` branch on a pending order: the complete
characterisation of the order-settlement path (server.py lines 730-735). -/
theorem orderSettle_success_eq (ref : String) (now : Nat) (db : DB)
    (s : Store) (o : Order)
    (hsid : findStoreById db o.store_id = some s)
    (ho : findOrderByRef db ref = some o)
    (hp : o.status = "pending") :
    orderSettle ref now db =
      creditBoth (completeOrder db o.id now) o.store_id s o.total_amount := by
  unfold orderSettle
  rw [ho]
  simp only [hp]
  rw [if_neg (by decide : ¬("pending" = "completed"))]
  rw [findStoreById_completeOrder, hsid]

/-! ## Claim theorems -/

/-- C5: the webhook handler rejects with 401 exactly when the signature header
differs from the HMAC-SHA512 hex digest of the raw body under the gateway
secret; a rejected request is neither parsed nor allowed to mutate state, and
a correctly recomputed signature over the same bytes is accepted. -/
theorem webhook_signature_gate (mac : String → String → String) (secret : String)
    (sig : Option String) (body : String) (parse : String → WEvent) (now : Nat) (db : DB) :
    ((paystack_webhook mac secret sig body parse now db).status = 401 ↔
      sig ≠ some (mac secret body)) ∧
    (sig ≠ some (mac secret body) →
      (paystack_webhook mac secret sig body parse now db).db = db ∧
      (paystack_webhook mac secret sig body parse now db).parsed = false) ∧
    (sig = some (mac secret body) →
      (paystack_webhook mac secret sig body parse now db).status = 200 ∧
      (paystack_webhook mac secret sig body parse now db).parsed = true) := by
  unfold paystack_webhook
  by_cases h : sig = some (mac secret body) <;> simp [h]

/-- A stand-in for the HMAC-SHA512 hex-digest primitive, used to instantiate
the signature-gate theorems at concrete inputs. -/
def hmac0 : String → String → String := fun secret body => secret ++ "|" ++ body

/-- A stand-in webhook-body parser for concrete instantiations. -/
def parse0 : String → WEvent := fun _ => WEvent.other

/-- The empty database snapshot. -/
def dbEmpty : DB := ⟨[], [], [], []⟩

theorem webhook_signature_gate_witness :
    (paystack_webhook hmac0 "sk" (some "bad") "x" parse0 0 dbEmpty).db = dbEmpty ∧
    (paystack_webhook hmac0 "sk" (some "bad") "x" parse0 0 dbEmpty).parsed = false ∧
    (paystack_webhook hmac0 "sk" (some (hmac0 "sk" "x")) "x" parse0 0 dbEmpty).status = 200 :=
  ⟨((webhook_signature_gate hmac0 "sk" (some "bad") "x" parse0 0 dbEmpty).2.1 (by decide)).1,
   ((webhook_signature_gate hmac0 "sk" (some "bad") "x" parse0 0 dbEmpty).2.1 (by decide)).2,
   ((webhook_signature_gate hmac0 "sk" (some (hmac0 "sk" "x")) "x" parse0 0 dbEmpty).2.2 rfl).1⟩

/-- C6: on an existing pending order, a gateway response that does not report
success yields the failure outcome with no state change and no e-mail, and a
gateway exception yields the 503-class error (HTTP 500 in the source), never
a success body. -/
theorem verify_payment_failure_and_unavailable (now : Nat) (db : DB) (slug ref : String)
    (s : Store) (o : Order) (st : Bool) (ds : String)
    (hs : findStoreBySlug db slug = some s)
    (ho : findOrderByRef db ref = some o)
    (hp : o.status = "pending")
    (hfail : (st && (ds == "success")) = false) :
    ((verify_payment (.resp st ds) now db slug ref).db = db ∧
     (verify_payment (.resp st ds) now db slug ref).resp = .ok (.failed "Payment verification failed") ∧
     (verify_payment (.resp st ds) now db slug ref).emails = []) ∧
    ((verify_payment .exn now db slug ref).db = db ∧
     (verify_payment .exn now db slug ref).resp = .err 500 "Verification service unavailable" ∧
     ∀ m oi wa, (verify_payment .exn now db slug ref).resp ≠ .ok (.success m oi wa)) := by
  unfold verify_payment
  rw [hs, ho]
  simp only [hp]
  rw [if_neg (by decide : ¬(("pending" : String) = "completed"))]
  simp [hfail]

def wStore6 : Store := ⟨1, 7, "Shop", "shop", none, "0803", 0, 0, 0, "active", none, none⟩

def wOrder6 : Order := ⟨"ord1", 1, "Ada", "0803", "12 Road", none, [], 5000, "carty_w6", "pending", none⟩

def wDB6 : DB := ⟨[wStore6], [wOrder6], [], []⟩

theorem verify_payment_failure_and_unavailable_witness :
    ((verify_payment (.resp true "abandoned") 100 wDB6 "shop" "carty_w6").db = wDB6 ∧
     (verify_payment (.resp true "abandoned") 100 wDB6 "shop" "carty_w6").resp =
       .ok (.failed "Payment verification failed") ∧
     (verify_payment (.resp true "abandoned") 100 wDB6 "shop" "carty_w6").emails = []) ∧
    ((verify_payment .exn 100 wDB6 "shop" "carty_w6").db = wDB6 ∧
     (verify_payment .exn 100 wDB6 "shop" "carty_w6").resp =
       .err 500 "Verification service unavailable" ∧
     ∀ m oi wa, (verify_payment .exn 100 wDB6 "shop" "carty_w6").resp ≠
       .ok (.success m oi wa)) :=
  verify_payment_failure_and_unavailable 100 wDB6 "shop" "carty_w6" wStore6 wOrder6
    true "abandoned" (by decide) (by decide) (by decide) (by decide)

/-- C7: a withdrawal whose amount exceeds the wallet balance or is below the
100-unit minimum is rejected with a 4xx error before the transfer call, and
the database — wallet balance and withdrawals table included — is untouched. -/
theorem request_withdrawal_rejects_invalid (gw : TransferGw) (db : DB) (userId : Nat)
    (amount : Int) (ref : String) (s : Store)
    (hs : findStoreByUser db userId = some s)
    (hbad : s.wallet_balance < amount ∨ amount < 100) :
    (request_withdrawal gw db userId amount ref).db = db ∧
    (request_withdrawal gw db userId amount ref).gatewayCalled = false ∧
    ∃ d, (request_withdrawal gw db userId amount ref).resp = .err 400 d := by
  simp only [request_withdrawal, hs]
  by_cases h1 : s.recipient_code = none
  · rw [if_pos h1]
    exact ⟨rfl, rfl, _, rfl⟩
  · rw [if_neg h1]
    by_cases h2 : s.wallet_balance < amount
    · rw [if_pos h2]
      exact ⟨rfl, rfl, _, rfl⟩
    · rw [if_neg h2]
      have h3 : amount < 100 := hbad.resolve_left h2
      rw [if_pos h3]
      exact ⟨rfl, rfl, _, rfl⟩

def wStore7 : Store := ⟨1, 7, "Shop", "shop", none, "0803", 40, 0, 0, "active", none, some "rc1"⟩

def wDB7 : DB := ⟨[wStore7], [], [], []⟩

theorem request_withdrawal_rejects_invalid_witness :
    (request_withdrawal (.resp true) wDB7 7 50 "wd_w7").db = wDB7 ∧
    (request_withdrawal (.resp true) wDB7 7 50 "wd_w7").gatewayCalled = false ∧
    ∃ d, (request_withdrawal (.resp true) wDB7 7 50 "wd_w7").resp = .err 400 d :=
  request_withdrawal_rejects_invalid (.resp true) wDB7 7 50 "wd_w7" wStore7
    (by decide) (by decide)

/-- C8: a signature-valid `transfer.failed` event whose reference matches an
existing withdrawal of amount A credits exactly A back onto the owning
store's wallet balance and marks the withdrawal failed. -/
theorem transfer_failed_reversal (mac : String → String → String) (secret body : String)
    (parse : String → WEvent) (now : Nat) (db : DB) (ref : String)
    (w : Withdrawal) (s : Store)
    (hparse : parse body = .transferFailed ref)
    (hw : findWithdrawalByRef db ref = some w)
    (hsid : findStoreById db w.store_id = some s) :
    (paystack_webhook mac secret (some (mac secret body)) body parse now db).status = 200 ∧
    walletOf (paystack_webhook mac secret (some (mac secret body)) body parse now db).db w.store_id =
      some (s.wallet_balance + w.amount) ∧
    withdrawalStatusOf (paystack_webhook mac secret (some (mac secret body)) body parse now db).db ref =
      some "failed" := by
  have hsb : (s.id == w.store_id) = true :=
    List.find?_some (p := fun x : Store => x.id == w.store_id) hsid
  have hwb : (w.reference == ref) = true :=
    List.find?_some (p := fun x : Withdrawal => x.reference == ref) hw
  rw [beq_iff_eq] at hsb hwb
  simp only [paystack_webhook, if_pos rfl, hparse, webhookProcess, transferRevert, hw, hsid]
  refine ⟨rfl, ?_, ?_⟩
  · show walletOf (creditWallet db w.store_id s w.amount) w.store_id =
      some (s.wallet_balance + w.amount)
    unfold walletOf
    rw [findStoreById_creditWallet, hsid]
    simp [hsb]
  · show ((updateWhere (fun x => x.reference == ref)
        (fun x => { x with status := "failed" }) db.withdrawals).find?
        (fun x => x.reference == ref)).map (fun x => x.status) = some "failed"
    rw [find?_updateWhere (fun x => x.reference == ref) (fun x => x.reference == ref)
      (fun x => { x with status := "failed" })
      (fun x => by cases h : x.reference == ref <;> simp [h]) db.withdrawals]
    rw [show db.withdrawals.find? (fun x => x.reference == ref) = some w from hw]
    simp [hwb]

def wStore8 : Store := ⟨1, 7, "Shop", "shop", none, "0803", 1500, 0, 9000, "active", none, some "rc1"⟩

def wRow8 : Withdrawal := ⟨1, 500, "wd_w8", "pending", none⟩

def wDB8 : DB := ⟨[wStore8], [], [wRow8], []⟩

/-- Parser stand-in producing the concrete `transfer.failed` event. -/
def parse8 : String → WEvent := fun _ => WEvent.transferFailed "wd_w8"

theorem transfer_failed_reversal_witness :
    (paystack_webhook hmac0 "sk" (some (hmac0 "sk" "b")) "b" parse8 0 wDB8).status = 200 ∧
    walletOf (paystack_webhook hmac0 "sk" (some (hmac0 "sk" "b")) "b" parse8 0 wDB8).db 1 =
      some (1500 + 500) ∧
    withdrawalStatusOf (paystack_webhook hmac0 "sk" (some (hmac0 "sk" "b")) "b" parse8 0 wDB8).db "wd_w8" =
      some "failed" :=
  transfer_failed_reversal hmac0 "sk" "b" parse8 0 wDB8 "wd_w8" wRow8 wStore8
    (by decide) (by decide) (by decide)

/-- C10: for any authenticated user owning a store and any reference the
gateway reports successful, the subscription verify endpoint activates the
caller's own store for thirty days from now, with no check that a
`pending_subscriptions` row exists for the reference or belongs to the
caller's store (the theorem quantifies over arbitrary snapshots and
references with no hypothesis about `pending_subs`); the delete by reference
is unconditional and is a no-op when no row matches. -/
theorem verify_subscription_no_pending_check (now : Nat) (db : DB) (userId : Nat)
    (ref : String) (s : Store)
    (hs : findStoreByUser db userId = some s) :
    (verify_subscription (.resp true "success") now db userId ref).resp =
      .success (now + thirtyDays) ∧
    findStoreByUser (verify_subscription (.resp true "success") now db userId ref).db userId =
      some { s with subscription_status := "active",
                    subscription_end_date := some (now + thirtyDays) } ∧
    (verify_subscription (.resp true "success") now db userId ref).db.pending_subs =
      deleteWhere (fun p => p.reference == ref) db.pending_subs ∧
    ((∀ p ∈ db.pending_subs, (p.reference == ref) = false) →
      (verify_subscription (.resp true "success") now db userId ref).db.pending_subs =
        db.pending_subs) ∧
    (verify_subscription (.resp true "success") now db userId ref).db.orders = db.orders ∧
    (verify_subscription (.resp true "success") now db userId ref).db.withdrawals =
      db.withdrawals ∧
    (verify_subscription (.resp true "success") now db userId ref).gatewayCalled = true := by
  have hsb : (s.user_id == userId) = true :=
    List.find?_some (p := fun x : Store => x.user_id == userId) hs
  simp only [verify_subscription, hs,
    if_pos (by decide : (true && (("success" : String) == "success")) = true)]
  refine ⟨by trivial, ?_, by trivial, ?_, by trivial, by trivial, by trivial⟩
  · show findStoreByUser (activateSub db s.id now) userId = _
    rw [findStoreByUser_activateSub, hs]
    simp
  · intro hnone
    show deleteWhere (fun p => p.reference == ref) db.pending_subs = db.pending_subs
    exact deleteWhere_of_no_match _ _ hnone

def wStore10 : Store := ⟨1, 7, "Shop", "shop", none, "0803", 0, 0, 0, "inactive", none, none⟩

def wDB10 : DB := ⟨[wStore10], [], [], []⟩

theorem verify_subscription_no_pending_check_witness :
    (verify_subscription (.resp true "success") 100 wDB10 7 "sub_ghost").resp =
      .success (100 + thirtyDays) ∧
    findStoreByUser (verify_subscription (.resp true "success") 100 wDB10 7 "sub_ghost").db 7 =
      some { wStore10 with subscription_status := "active",
                           subscription_end_date := some (100 + thirtyDays) } ∧
    (verify_subscription (.resp true "success") 100 wDB10 7 "sub_ghost").db.pending_subs =
      deleteWhere (fun p => p.reference == "sub_ghost") wDB10.pending_subs ∧
    ((∀ p ∈ wDB10.pending_subs, (p.reference == "sub_ghost") = false) →
      (verify_subscription (.resp true "success") 100 wDB10 7 "sub_ghost").db.pending_subs =
        wDB10.pending_subs) ∧
    (verify_subscription (.resp true "success") 100 wDB10 7 "sub_ghost").db.orders =
      wDB10.orders ∧
    (verify_subscription (.resp true "success") 100 wDB10 7 "sub_ghost").db.withdrawals =
      wDB10.withdrawals ∧
    (verify_subscription (.resp true "success") 100 wDB10 7 "sub_ghost").gatewayCalled = true :=
  verify_subscription_no_pending_check 100 wDB10 7 "sub_ghost" wStore10 (by decide)

/-- C2: the poll-verify success path completes the pending order with paid
timestamp now, credits the owning store's wallet balance and total earnings by
exactly the order total, schedules exactly one seller e-mail iff the store has
an e-mail on file, and returns a success outcome carrying the WhatsApp deep
link to the seller's number. -/
theorem verify_payment_success_effects (now : Nat) (db : DB) (slug ref : String)
    (s : Store) (o : Order)
    (hs : findStoreBySlug db slug = some s)
    (hsid : findStoreById db s.id = some s)
    (ho : findOrderByRef db ref = some o)
    (hp : o.status = "pending")
    (hown : o.store_id = s.id) :
    findOrderByRef (verify_payment (.resp true "success") now db slug ref).db ref =
      some { o with status := "completed", paid_at := some now } ∧
    walletOf (verify_payment (.resp true "success") now db slug ref).db o.store_id =
      some (s.wallet_balance + o.total_amount) ∧
    earningsOf (verify_payment (.resp true "success") now db slug ref).db o.store_id =
      some (s.total_earnings + o.total_amount) ∧
    (verify_payment (.resp true "success") now db slug ref).emails =
      (match s.email with | some e => [e] | none => []) ∧
    ((verify_payment (.resp true "success") now db slug ref).emails.length = 1 ↔
      s.email.isSome = true) ∧
    (verify_payment (.resp true "success") now db slug ref).resp =
      .ok (.success "Payment verified" (some o.id)
        (some (generate_whatsapp_link s.whatsapp_number (mkNotif o)))) ∧
    (∃ t, generate_whatsapp_link s.whatsapp_number (mkNotif o) =
      "https://wa.me/" ++ waPhone s.whatsapp_number ++ "?text=" ++ t) := by
  have hob : (o.payment_reference == ref) = true :=
    List.find?_some (p := fun x : Order => x.payment_reference == ref) ho
  have hsrow : (s.id == s.id) = true := beq_self_eq_true s.id
  have hkey := verify_payment_success_eq now db slug ref s o hs hsid ho hp
  rw [hkey]
  refine ⟨?_, ?_, ?_, rfl, ?_, rfl, ⟨_, rfl⟩⟩
  · show findOrderByRef (creditBoth (completeOrder db o.id now) s.id s o.total_amount) ref = _
    rw [findOrderByRef_creditBoth, findOrderByRef_completeOrder, ho]
    simp
  · show walletOf (creditBoth (completeOrder db o.id now) s.id s o.total_amount) o.store_id = _
    rw [hown]
    unfold walletOf
    rw [findStoreById_creditBoth, findStoreById_completeOrder, hsid]
    simp
  · show earningsOf (creditBoth (completeOrder db o.id now) s.id s o.total_amount) o.store_id = _
    rw [hown]
    unfold earningsOf
    rw [findStoreById_creditBoth, findStoreById_completeOrder, hsid]
    simp
  · cases s.email <;> simp

def wStore2 : Store := ⟨1, 7, "Shop", "shop", some "seller@example.com", "08012345678", 2000, 0, 9000, "active", none, some "rc1"⟩

def wOrder2 : Order := ⟨"ord123abc", 1, "Ada", "08031112222", "12 Road", none, [⟨"p1", "Cap", 2, 5000⟩], 5000, "carty_ref1", "pending", none⟩

def wDB2 : DB := ⟨[wStore2], [wOrder2], [], []⟩

theorem verify_payment_success_effects_witness :
    findOrderByRef (verify_payment (.resp true "success") 100 wDB2 "shop" "carty_ref1").db "carty_ref1" =
      some { wOrder2 with status := "completed", paid_at := some 100 } ∧
    walletOf (verify_payment (.resp true "success") 100 wDB2 "shop" "carty_ref1").db wOrder2.store_id =
      some (wStore2.wallet_balance + wOrder2.total_amount) ∧
    earningsOf (verify_payment (.resp true "success") 100 wDB2 "shop" "carty_ref1").db wOrder2.store_id =
      some (wStore2.total_earnings + wOrder2.total_amount) ∧
    (verify_payment (.resp true "success") 100 wDB2 "shop" "carty_ref1").emails =
      (match wStore2.email with | some e => [e] | none => []) ∧
    ((verify_payment (.resp true "success") 100 wDB2 "shop" "carty_ref1").emails.length = 1 ↔
      wStore2.email.isSome = true) ∧
    (verify_payment (.resp true "success") 100 wDB2 "shop" "carty_ref1").resp =
      .ok (.success "Payment verified" (some wOrder2.id)
        (some (generate_whatsapp_link wStore2.whatsapp_number (mkNotif wOrder2)))) ∧
    (∃ t, generate_whatsapp_link wStore2.whatsapp_number (mkNotif wOrder2) =
      "https://wa.me/" ++ waPhone wStore2.whatsapp_number ++ "?text=" ++ t) :=
  verify_payment_success_effects 100 wDB2 "shop" "carty_ref1" wStore2 wOrder2
    (by decide) (by decide) (by decide) (by decide) (by decide)

/-- The idempotent short-circuit of `verify_payment` (server.py lines 424-425):
on an already-completed order the handler returns success and performs no
gateway call and no write. -/
theorem verify_payment_completed_eq (gw : GatewayResult) (now : Nat) (db : DB)
    (slug ref : String) (s : Store) (o : Order)
    (hs : findStoreBySlug db slug = some s)
    (ho : findOrderByRef db ref = some o)
    (hc : o.status = "completed") :
    verify_payment gw now db slug ref =
      ⟨db, .ok (.success "Payment already verified" none none), [], false⟩ := by
  unfold verify_payment
  rw [hs, ho]
  simp [hc]

/-- The webhook order branch no-ops on an already-completed order
(server.py line 731). -/
theorem orderSettle_completed_eq (ref : String) (now : Nat) (db : DB) (o : Order)
    (ho : findOrderByRef db ref = some o)
    (hc : o.status = "completed") :
    orderSettle ref now db = db := by
  unfold orderSettle
  rw [ho]
  simp [hc]

/-- The updated order row produced by the first successful settlement of a
pending order: completed, with the paid timestamp of that run. -/
theorem findOrderByRef_after_success (now : Nat) (db : DB) (slug ref : String)
    (s : Store) (o : Order)
    (hs : findStoreBySlug db slug = some s)
    (hsid : findStoreById db s.id = some s)
    (ho : findOrderByRef db ref = some o)
    (hp : o.status = "pending") :
    findOrderByRef (verify_payment (.resp true "success") now db slug ref).db ref =
      some { o with status := "completed", paid_at := some now } := by
  rw [verify_payment_success_eq now db slug ref s o hs hsid ho hp]
  show findOrderByRef (creditBoth (completeOrder db o.id now) s.id s o.total_amount) ref = _
  rw [findOrderByRef_creditBoth, findOrderByRef_completeOrder, ho]
  simp

/-- The slug lookup still finds the (credited) store row after the first
successful settlement. -/
theorem findStoreBySlug_after_success (now : Nat) (db : DB) (slug ref : String)
    (s : Store) (o : Order)
    (hs : findStoreBySlug db slug = some s)
    (hsid : findStoreById db s.id = some s)
    (ho : findOrderByRef db ref = some o)
    (hp : o.status = "pending") :
    findStoreBySlug (verify_payment (.resp true "success") now db slug ref).db slug =
      some { s with wallet_balance := s.wallet_balance + o.total_amount,
                    total_earnings := s.total_earnings + o.total_amount } := by
  rw [verify_payment_success_eq now db slug ref s o hs hsid ho hp]
  show findStoreBySlug (creditBoth (completeOrder db o.id now) s.id s o.total_amount) slug = _
  rw [findStoreBySlug_creditBoth, findStoreBySlug_completeOrder, hs]
  simp

/-- C1: at most one ledger credit per payment reference — the first trigger
that observes the pending status credits the wallet and earnings once, and
every later poll of the same reference (and a later webhook delivery) returns
a success outcome without calling the gateway and without changing the
database, so the balances stay exactly one order total above their initial
values. -/
theorem verify_payment_idempotent_credit (gw2 gw3 : GatewayResult)
    (now now2 now3 now4 : Nat) (db : DB) (slug ref : String) (s : Store) (o : Order)
    (hs : findStoreBySlug db slug = some s)
    (hsid : findStoreById db s.id = some s)
    (ho : findOrderByRef db ref = some o)
    (hp : o.status = "pending")
    (hcarty : pyStartsWith ref "carty_" = true) :
    walletOf (verify_payment (.resp true "success") now db slug ref).db s.id =
      some (s.wallet_balance + o.total_amount) ∧
    earningsOf (verify_payment (.resp true "success") now db slug ref).db s.id =
      some (s.total_earnings + o.total_amount) ∧
    (verify_payment gw2 now2 (verify_payment (.resp true "success") now db slug ref).db slug ref).resp =
      .ok (.success "Payment already verified" none none) ∧
    (verify_payment gw2 now2 (verify_payment (.resp true "success") now db slug ref).db slug ref).db =
      (verify_payment (.resp true "success") now db slug ref).db ∧
    (verify_payment gw2 now2 (verify_payment (.resp true "success") now db slug ref).db slug ref).gatewayCalled =
      false ∧
    (verify_payment gw3 now3
      (verify_payment gw2 now2 (verify_payment (.resp true "success") now db slug ref).db slug ref).db
      slug ref).resp = .ok (.success "Payment already verified" none none) ∧
    webhookProcess (.chargeSuccess ref) now4 (verify_payment (.resp true "success") now db slug ref).db =
      (verify_payment (.resp true "success") now db slug ref).db := by
  have hs' := findStoreBySlug_after_success now db slug ref s o hs hsid ho hp
  have ho' := findOrderByRef_after_success now db slug ref s o hs hsid ho hp
  have h2 := verify_payment_completed_eq gw2 now2
    (verify_payment (.resp true "success") now db slug ref).db slug ref _ _ hs' ho' rfl
  refine ⟨?_, ?_, ?_, ?_, ?_, ?_, ?_⟩
  · rw [verify_payment_success_eq now db slug ref s o hs hsid ho hp]
    show walletOf (creditBoth (completeOrder db o.id now) s.id s o.total_amount) s.id = _
    unfold walletOf
    rw [findStoreById_creditBoth, findStoreById_completeOrder, hsid]
    simp
  · rw [verify_payment_success_eq now db slug ref s o hs hsid ho hp]
    show earningsOf (creditBoth (completeOrder db o.id now) s.id s o.total_amount) s.id = _
    unfold earningsOf
    rw [findStoreById_creditBoth, findStoreById_completeOrder, hsid]
    simp
  · rw [h2]
  · rw [h2]
  · rw [h2]
  · rw [h2]
    exact congrArg PollOut.resp (verify_payment_completed_eq gw3 now3
      (verify_payment (.resp true "success") now db slug ref).db slug ref _ _ hs' ho' rfl)
  · simp only [webhookProcess, hcarty]
    rw [if_pos trivial]
    exact orderSettle_completed_eq ref now4 _ _ ho' rfl

theorem verify_payment_idempotent_credit_witness :
    walletOf (verify_payment (.resp true "success") 100 wDB2 "shop" "carty_ref1").db wStore2.id =
      some (wStore2.wallet_balance + wOrder2.total_amount) ∧
    earningsOf (verify_payment (.resp true "success") 100 wDB2 "shop" "carty_ref1").db wStore2.id =
      some (wStore2.total_earnings + wOrder2.total_amount) ∧
    (verify_payment .exn 200 (verify_payment (.resp true "success") 100 wDB2 "shop" "carty_ref1").db "shop" "carty_ref1").resp =
      .ok (.success "Payment already verified" none none) ∧
    (verify_payment .exn 200 (verify_payment (.resp true "success") 100 wDB2 "shop" "carty_ref1").db "shop" "carty_ref1").db =
      (verify_payment (.resp true "success") 100 wDB2 "shop" "carty_ref1").db ∧
    (verify_payment .exn 200 (verify_payment (.resp true "success") 100 wDB2 "shop" "carty_ref1").db "shop" "carty_ref1").gatewayCalled =
      false ∧
    (verify_payment (.resp false "x") 300
      (verify_payment .exn 200 (verify_payment (.resp true "success") 100 wDB2 "shop" "carty_ref1").db "shop" "carty_ref1").db
      "shop" "carty_ref1").resp = .ok (.success "Payment already verified" none none) ∧
    webhookProcess (.chargeSuccess "carty_ref1") 400 (verify_payment (.resp true "success") 100 wDB2 "shop" "carty_ref1").db =
      (verify_payment (.resp true "success") 100 wDB2 "shop" "carty_ref1").db :=
  verify_payment_idempotent_credit .exn (.resp false "x") 100 200 300 400 wDB2
    "shop" "carty_ref1" wStore2 wOrder2 (by decide) (by decide) (by decide) (by decide) (by decide)

/-- C3: resolving the same pending order via the poll endpoint and via the
`charge.success` webhook, run one after the other in either order, reaches the
same final database (order completed with the first run's paid timestamp, the
ledger credited once by the order total); whichever path runs second observes
the completed status and changes nothing. -/
theorem dual_path_equivalence (now1 now2 : Nat) (db : DB) (slug ref : String)
    (s : Store) (o : Order)
    (hs : findStoreBySlug db slug = some s)
    (hsid : findStoreById db s.id = some s)
    (ho : findOrderByRef db ref = some o)
    (hp : o.status = "pending")
    (hown : o.store_id = s.id)
    (hcarty : pyStartsWith ref "carty_" = true) :
    (verify_payment (.resp true "success") now1 db slug ref).db =
      webhookProcess (.chargeSuccess ref) now1 db ∧
    webhookProcess (.chargeSuccess ref) now2
        ((verify_payment (.resp true "success") now1 db slug ref).db) =
      (verify_payment (.resp true "success") now1 db slug ref).db ∧
    (verify_payment (.resp true "success") now2
        (webhookProcess (.chargeSuccess ref) now1 db) slug ref).db =
      webhookProcess (.chargeSuccess ref) now1 db ∧
    (verify_payment (.resp true "success") now2
        (webhookProcess (.chargeSuccess ref) now1 db) slug ref).resp =
      .ok (.success "Payment already verified" none none) ∧
    findOrderByRef (webhookProcess (.chargeSuccess ref) now1 db) ref =
      some { o with status := "completed", paid_at := some now1 } ∧
    walletOf (webhookProcess (.chargeSuccess ref) now1 db) s.id =
      some (s.wallet_balance + o.total_amount) ∧
    earningsOf (webhookProcess (.chargeSuccess ref) now1 db) s.id =
      some (s.total_earnings + o.total_amount) := by
  have hsid' : findStoreById db o.store_id = some s := by rw [hown]; exact hsid
  have hhook : webhookProcess (.chargeSuccess ref) now1 db =
      creditBoth (completeOrder db o.id now1) s.id s o.total_amount := by
    simp only [webhookProcess, hcarty]
    rw [if_pos trivial]
    rw [orderSettle_success_eq ref now1 db s o hsid' ho hp, hown]
  have hpoll : (verify_payment (.resp true "success") now1 db slug ref).db =
      creditBoth (completeOrder db o.id now1) s.id s o.total_amount := by
    rw [verify_payment_success_eq now1 db slug ref s o hs hsid ho hp]
  have hs' := findStoreBySlug_after_success now1 db slug ref s o hs hsid ho hp
  have ho' := findOrderByRef_after_success now1 db slug ref s o hs hsid ho hp
  have hs'' : findStoreBySlug (webhookProcess (.chargeSuccess ref) now1 db) slug =
      some { s with wallet_balance := s.wallet_balance + o.total_amount,
                    total_earnings := s.total_earnings + o.total_amount } := by
    rw [hhook, ← hpoll]; exact hs'
  have ho'' : findOrderByRef (webhookProcess (.chargeSuccess ref) now1 db) ref =
      some { o with status := "completed", paid_at := some now1 } := by
    rw [hhook, ← hpoll]; exact ho'
  refine ⟨?_, ?_, ?_, ?_, ho'', ?_, ?_⟩
  · rw [hhook, hpoll]
  · simp only [webhookProcess, hcarty]
    rw [if_pos trivial]
    exact orderSettle_completed_eq ref now2 _ _ ho' rfl
  · rw [verify_payment_completed_eq (.resp true "success") now2
      (webhookProcess (.chargeSuccess ref) now1 db) slug ref _ _ hs'' ho'' rfl]
  · rw [verify_payment_completed_eq (.resp true "success") now2
      (webhookProcess (.chargeSuccess ref) now1 db) slug ref _ _ hs'' ho'' rfl]
  · rw [hhook]
    unfold walletOf
    rw [findStoreById_creditBoth, findStoreById_completeOrder, hsid]
    simp
  · rw [hhook]
    unfold earningsOf
    rw [findStoreById_creditBoth, findStoreById_completeOrder, hsid]
    simp

theorem dual_path_equivalence_witness :
    (verify_payment (.resp true "success") 100 wDB2 "shop" "carty_ref1").db =
      webhookProcess (.chargeSuccess "carty_ref1") 100 wDB2 ∧
    webhookProcess (.chargeSuccess "carty_ref1") 200
        ((verify_payment (.resp true "success") 100 wDB2 "shop" "carty_ref1").db) =
      (verify_payment (.resp true "success") 100 wDB2 "shop" "carty_ref1").db ∧
    (verify_payment (.resp true "success") 200
        (webhookProcess (.chargeSuccess "carty_ref1") 100 wDB2) "shop" "carty_ref1").db =
      webhookProcess (.chargeSuccess "carty_ref1") 100 wDB2 ∧
    (verify_payment (.resp true "success") 200
        (webhookProcess (.chargeSuccess "carty_ref1") 100 wDB2) "shop" "carty_ref1").resp =
      .ok (.success "Payment already verified" none none) ∧
    findOrderByRef (webhookProcess (.chargeSuccess "carty_ref1") 100 wDB2) "carty_ref1" =
      some { wOrder2 with status := "completed", paid_at := some 100 } ∧
    walletOf (webhookProcess (.chargeSuccess "carty_ref1") 100 wDB2) wStore2.id =
      some (wStore2.wallet_balance + wOrder2.total_amount) ∧
    earningsOf (webhookProcess (.chargeSuccess "carty_ref1") 100 wDB2) wStore2.id =
      some (wStore2.total_earnings + wOrder2.total_amount) := by
  have h := dual_path_equivalence 100 200 wDB2 "shop" "carty_ref1" wStore2 wOrder2
    (by decide) (by decide) (by decide) (by decide) (by decide) (by decide)
  exact h

/-! ## Frame lemmas for the webhook router -/

theorem orderSettle_pending_subs (ref : String) (now : Nat) (db : DB) :
    (orderSettle ref now db).pending_subs = db.pending_subs := by
  unfold orderSettle
  cases h : findOrderByRef db ref with
  | none => rfl
  | some o =>
    by_cases hc : o.status = "completed"
    · simp [hc]
    · simp only [if_neg hc]
      cases h2 : findStoreById (completeOrder db o.id now) o.store_id <;> rfl

theorem orderSettle_withdrawals (ref : String) (now : Nat) (db : DB) :
    (orderSettle ref now db).withdrawals = db.withdrawals := by
  unfold orderSettle
  cases h : findOrderByRef db ref with
  | none => rfl
  | some o =>
    by_cases hc : o.status = "completed"
    · simp [hc]
    · simp only [if_neg hc]
      cases h2 : findStoreById (completeOrder db o.id now) o.store_id <;> rfl

theorem subSettle_orders (ref : String) (now : Nat) (db : DB) :
    (subSettle ref now db).orders = db.orders := by
  unfold subSettle
  cases h : findPendingByRef db ref <;> rfl

theorem subSettle_withdrawals (ref : String) (now : Nat) (db : DB) :
    (subSettle ref now db).withdrawals = db.withdrawals := by
  unfold subSettle
  cases h : findPendingByRef db ref <;> rfl

theorem transferRevert_orders (ref : String) (db : DB) :
    (transferRevert ref db).orders = db.orders := by
  unfold transferRevert
  split
  · split <;> rfl
  · rfl

theorem transferRevert_pending_subs (ref : String) (db : DB) :
    (transferRevert ref db).pending_subs = db.pending_subs := by
  unfold transferRevert
  split
  · split <;> rfl
  · rfl

/-- C9: the webhook router's dispatch obeys the reference-prefix convention —
`charge.success` reaches order settlement exactly on `carty_` references and
subscription settlement exactly on `sub_` references (any other prefix is a
complete no-op, and orders, pending subscriptions and withdrawals are each
untouched by branches of the other kind), while transfer events act only on
withdrawal rows, whose references always carry the `wd_`/`tr_` prefix, so a
reference with neither prefix settles nothing. -/
theorem webhook_reference_routing (ref : String) (now : Nat) (db : DB)
    (hinv : ∀ w ∈ db.withdrawals,
      pyStartsWith w.reference "wd_" = true ∨ pyStartsWith w.reference "tr_" = true) :
    (pyStartsWith ref "carty_" = true →
      webhookProcess (.chargeSuccess ref) now db = orderSettle ref now db) ∧
    (pyStartsWith ref "carty_" = false → pyStartsWith ref "sub_" = true →
      webhookProcess (.chargeSuccess ref) now db = subSettle ref now db) ∧
    (pyStartsWith ref "carty_" = false →
      (webhookProcess (.chargeSuccess ref) now db).orders = db.orders) ∧
    (pyStartsWith ref "sub_" = false →
      (webhookProcess (.chargeSuccess ref) now db).pending_subs = db.pending_subs) ∧
    (pyStartsWith ref "carty_" = false → pyStartsWith ref "sub_" = false →
      webhookProcess (.chargeSuccess ref) now db = db) ∧
    (webhookProcess (.chargeSuccess ref) now db).withdrawals = db.withdrawals ∧
    webhookProcess (.transferSuccess ref) now db = transferMark ref now db ∧
    webhookProcess (.transferFailed ref) now db = transferRevert ref db ∧
    (webhookProcess (.transferSuccess ref) now db).orders = db.orders ∧
    (webhookProcess (.transferSuccess ref) now db).pending_subs = db.pending_subs ∧
    (webhookProcess (.transferSuccess ref) now db).stores = db.stores ∧
    (webhookProcess (.transferFailed ref) now db).orders = db.orders ∧
    (webhookProcess (.transferFailed ref) now db).pending_subs = db.pending_subs ∧
    (pyStartsWith ref "wd_" = false → pyStartsWith ref "tr_" = false →
      webhookProcess (.transferSuccess ref) now db = db ∧
      webhookProcess (.transferFailed ref) now db = db) := by
  have hnomatch : (pyStartsWith ref "wd_" = false → pyStartsWith ref "tr_" = false →
      ∀ w ∈ db.withdrawals, (w.reference == ref) = false) := by
    intro hwd htr w hw
    cases heq : w.reference == ref with
    | false => rfl
    | true =>
      have : w.reference = ref := by
        have := heq
        rwa [beq_iff_eq] at this
      rcases hinv w hw with h | h
      · rw [this] at h; rw [h] at hwd; exact absurd hwd (by simp)
      · rw [this] at h; rw [h] at htr; exact absurd htr (by simp)
  refine ⟨?_, ?_, ?_, ?_, ?_, ?_, rfl, rfl, rfl, rfl, rfl, transferRevert_orders ref db,
    transferRevert_pending_subs ref db, ?_⟩
  · intro hc
    simp only [webhookProcess, hc]
    rw [if_pos trivial]
  · intro hc hsub
    simp only [webhookProcess, hc, hsub]
    rw [if_neg (by simp), if_pos trivial]
  · intro hc
    simp only [webhookProcess, hc]
    rw [if_neg (by simp)]
    by_cases hsub : pyStartsWith ref "sub_" = true
    · rw [if_pos hsub]
      exact subSettle_orders ref now db
    · rw [if_neg hsub]
  · intro hsub
    simp only [webhookProcess, hsub]
    by_cases hc : pyStartsWith ref "carty_" = true
    · rw [if_pos hc]
      exact orderSettle_pending_subs ref now db
    · rw [if_neg hc, if_neg (by simp)]
  · intro hc hsub
    simp only [webhookProcess, hc, hsub]
    rw [if_neg (by simp), if_neg (by simp)]
  · show (if pyStartsWith ref "carty_" = true then orderSettle ref now db
      else if pyStartsWith ref "sub_" = true then subSettle ref now db else db).withdrawals =
      db.withdrawals
    by_cases hc : pyStartsWith ref "carty_" = true
    · rw [if_pos hc]
      exact orderSettle_withdrawals ref now db
    · rw [if_neg hc]
      by_cases hsub : pyStartsWith ref "sub_" = true
      · rw [if_pos hsub]
        exact subSettle_withdrawals ref now db
      · rw [if_neg hsub]
  · intro hwd htr
    constructor
    · show transferMark ref now db = db
      unfold transferMark
      rw [updateWhere_of_no_match _ _ _ (hnomatch hwd htr)]
    · show transferRevert ref db = db
      unfold transferRevert
      rw [show findWithdrawalByRef db ref = none from
        find?_of_no_match _ _ (hnomatch hwd htr)]

theorem webhook_reference_routing_witness :
    webhookProcess (.chargeSuccess "carty_x") 5 wDB8 = orderSettle "carty_x" 5 wDB8 ∧
    webhookProcess (.chargeSuccess "other_x") 5 wDB8 = wDB8 ∧
    webhookProcess (.transferSuccess "sub_x") 5 wDB8 = wDB8 ∧
    webhookProcess (.transferFailed "sub_x") 5 wDB8 = wDB8 :=
  ⟨(webhook_reference_routing "carty_x" 5 wDB8 (by decide)).1 (by decide),
   (webhook_reference_routing "other_x" 5 wDB8 (by decide)).2.2.2.2.1 (by decide) (by decide),
   ((webhook_reference_routing "sub_x" 5 wDB8 (by decide)).2.2.2.2.2.2.2.2.2.2.2.2.2
     (by decide) (by decide)).1,
   ((webhook_reference_routing "sub_x" 5 wDB8 (by decide)).2.2.2.2.2.2.2.2.2.2.2.2.2
     (by decide) (by decide)).2⟩

/-! ## The read-then-write double credit (claim C4) -/

def raceStore : Store := ⟨1, 7, "Shop", "shop", none, "0803", 0, 0, 0, "active", none, none⟩

def raceOrder : Order := ⟨"ord1", 1, "Ada", "0803", "12 Road", none, [], 5000, "carty_race", "pending", none⟩

def raceDB : DB := ⟨[raceStore], [raceOrder], [], []⟩

/-- The interleaving in which both triggers read the pending status before
either writes: T1 reads, T2 reads, T1 completes and credits, T2 completes and
credits again. -/
def raceSchedule : List Bool := [true, false, true, true, true, false, false, false]

/-- The serialised execution: T1 runs all four steps, then T2. -/
def seqSchedule : List Bool := [true, true, true, true, false, false, false, false]

/-- C4 (refuted as stated; the code loses the race): for the pending order of
total 5000 on a store with wallet balance 0, the interleaving in which both
triggers observe status pending before either writes ends with wallet
balance 10000 — the credit is applied twice — whereas the serialised
execution of the same two triggers ends with the specified single credit
of 5000.  The status check and the ledger write are separate round trips
(server.py lines 424-437), so nothing stops both triggers from passing the
check. -/
theorem concurrent_verify_double_credit :
    walletAfterSched "carty_race" 100 raceSchedule raceDB 1 = some 10000 ∧
    walletAfterSched "carty_race" 100 seqSchedule raceDB 1 = some 5000 ∧
    raceOrder.total_amount = 5000 ∧ raceStore.wallet_balance = 0 := by
  refine ⟨?_, ?_, rfl, rfl⟩ <;> rfl
